import Mathlib

set_option maxHeartbeats 1000000
set_option maxRecDepth 4000

/-!
Shallow embedding of `src/common/validation.cpp` (admission-time validators
for identifiers, secrets, environments, volumes, container specifications
and accelerator resource quantities), together with theorems settling the
frozen claims about that code.

Conventions of the embedding:

* Each validator returns `Option String`, mirroring `Option<Error>`
  (`none` = success, `some msg` = the reported error message).
* Protobuf optional fields become `Option` fields; a protobuf getter of an
  absent field yields the default instance, which we model with `Option.getD`.
* Union discriminators (protobuf enum type tags) are modelled as inductive
  types with one constructor per named enum value plus an `OTHER tag`
  constructor standing for every discriminator value outside the named set
  (reachable in C++ because an enum object can hold out-of-range values).
* Error message strings are reproduced verbatim from the source, with
  apostrophes written as the escape `\x27`.
-/

/-- Modelled from the spec: the platform-defined maximum component-name
length (`NAME_MAX` from `limits.h`, an external OS constant not part of the
validation source; 255 on POSIX platforms). -/
def NAME_MAX : Nat := 255

/-- Modelled from the spec: the POSIX path separator constant from the
external OS-constants header (`os::POSIX_PATH_SEPARATOR`). -/
def POSIX_PATH_SEPARATOR : Char := '/'

/-- Modelled from the spec: the Windows path separator constant from the
external OS-constants header (`os::WINDOWS_PATH_SEPARATOR`). -/
def WINDOWS_PATH_SEPARATOR : Char := '\\'

/-- C-locale `iscntrl` over byte-valued characters: true exactly for code
points 0..31 and 127. -/
def iscntrl (c : Char) : Bool :=
  c.toNat < 32 || c.toNat == 127

/-- The `invalidCharacter` lambda inside `validateID`: control characters
and both path separators are disallowed. -/
def invalidCharacter (c : Char) : Bool :=
  iscntrl c || c == POSIX_PATH_SEPARATOR || c == WINDOWS_PATH_SEPARATOR

/-- `validateID` from the source: empty check, then length check, then the
reserved path components `.` and `..`, then the character scan. The ID is
modelled as its list of (byte-valued) characters. -/
def validateID (id : List Char) : Option String :=
  if id.isEmpty then
    some "ID must not be empty"
  else if id.length > NAME_MAX then
    some ("ID must not be greater than " ++ toString NAME_MAX ++ " characters")
  else if id = ['.'] ∨ id = ['.', '.'] then
    some ("\x27" ++ String.mk id ++ "\x27 is disallowed")
  else if id.any invalidCharacter then
    some ("\x27" ++ String.mk id ++ "\x27 contains invalid characters")
  else
    none

/-- Modelled from the spec: the reference payload of a Secret; it carries a
name used in diagnostics (`secret.reference().name()`). -/
structure SecretReference where
  name : String
  deriving DecidableEq

/-- Modelled from the spec: the inline value payload of a Secret; `data` is
its byte content (`secret.value().data()`), modelled as a character list. -/
structure SecretValue where
  data : List Char
  deriving DecidableEq

/-- The `Secret::Type` union discriminator. `OTHER tag` stands for any
discriminator value outside the closed set of named enum values. -/
inductive SecretType where
  | REFERENCE
  | VALUE
  | UNKNOWN
  | OTHER (tag : Nat)
  deriving DecidableEq

/-- Modelled from the spec: a Secret is a discriminator plus two optional
payload slots. -/
structure Secret where
  type : SecretType
  reference : Option SecretReference
  value : Option SecretValue
  deriving DecidableEq

/-- The protobuf default instance for an absent `value` payload: empty byte
content (what `secret.value()` returns when `has_value()` is false). -/
def defaultSecretValue : SecretValue := ⟨[]⟩

/-- The protobuf default instance for an absent `secret` field (enum fields
default to the 0 value, `UNKNOWN`; payload slots default to absent). -/
def defaultSecret : Secret := ⟨SecretType.UNKNOWN, none, none⟩

/-- `validateSecret` from the source. The switch has cases for `REFERENCE`,
`VALUE` and `UNKNOWN` and no `default:` label; the `UNREACHABLE()` in the
source stands immediately after the `break` of the `UNKNOWN` case without a
label of its own, so it is dead code. A discriminator outside the named set
therefore falls past every case of the switch and the function returns
`None()`, i.e. success. -/
def validateSecret (secret : Secret) : Option String :=
  match secret.type with
  | SecretType.REFERENCE =>
    if !secret.reference.isSome then
      some "Secret of type REFERENCE must have the \x27reference\x27 field set"
    else if secret.value.isSome then
      some ("Secret \x27" ++ (secret.reference.getD ⟨""⟩).name ++
        "\x27 of type REFERENCE must not have the \x27value\x27 field set")
    else
      none
  | SecretType.VALUE =>
    if !secret.value.isSome then
      some "Secret of type VALUE must have the \x27value\x27 field set"
    else if secret.reference.isSome then
      some "Secret of type VALUE must not have the \x27reference\x27 field set"
    else
      none
  | SecretType.UNKNOWN => none
  | SecretType.OTHER _ => none

/-- The `Environment::Variable::Type` union discriminator; `OTHER tag`
stands for any discriminator value outside the closed named set. -/
inductive VariableType where
  | VALUE
  | SECRET
  | UNKNOWN
  | OTHER (tag : Nat)
  deriving DecidableEq

/-- Modelled from the spec: an environment variable is a name, a
discriminator, an optional literal value and an optional embedded Secret. -/
structure EnvironmentVariable where
  name : String
  type : VariableType
  value : Option String
  secret : Option Secret
  deriving DecidableEq

/-- Modelled from the spec: an Environment is an ordered sequence of
environment variables (the `variables()` field of the message; named `vars`
here because `variables` is a reserved word in Lean). -/
structure Environment where
  vars : List EnvironmentVariable
  deriving DecidableEq

/-- The null byte, the character searched for by the
`variable.secret().value().data().find(0)` check. -/
def NUL : Char := Char.ofNat 0

/-- The body of the loop inside `validateEnvironment`, for one variable
(`none` means the loop continues with the next variable). As in
`validateSecret`, the switch has no `default:` label and its
`UNREACHABLE()` is dead code after the `return` of the `UNKNOWN` case, so a
discriminator outside the named set falls past the switch and the loop
simply continues. The null-byte check reads the secret value payload
through protobuf getters, so an absent payload contributes empty byte
content. -/
def validateEnvironmentVariable (v : EnvironmentVariable) : Option String :=
  match v.type with
  | VariableType.SECRET =>
    if !v.secret.isSome then
      some ("Environment variable \x27" ++ v.name ++
        "\x27 of type \x27SECRET\x27 must have a secret set")
    else if v.value.isSome then
      some ("Environment variable \x27" ++ v.name ++
        "\x27 of type \x27SECRET\x27 must not have a value set")
    else
      match validateSecret (v.secret.getD defaultSecret) with
      | some e =>
        some ("Environment variable \x27" ++ v.name ++
          "\x27 specifies an invalid secret: " ++ e)
      | none =>
        if NUL ∈ ((v.secret.getD defaultSecret).value.getD defaultSecretValue).data then
          some ("Environment variable \x27" ++ v.name ++
            "\x27 specifies a secret containing null bytes, which is not allowed in the environment")
        else
          none
  | VariableType.VALUE =>
    if !v.value.isSome then
      some ("Environment variable \x27" ++ v.name ++
        "\x27 of type \x27VALUE\x27 must have a value set")
    else if v.secret.isSome then
      some ("Environment variable \x27" ++ v.name ++
        "\x27 of type \x27VALUE\x27 must not have a secret set")
    else
      none
  | VariableType.UNKNOWN =>
    some "Environment variable of type \x27UNKNOWN\x27 is not allowed"
  | VariableType.OTHER _ => none

/-- The `foreach` loop of `validateEnvironment`: returns the first failing
variable error, otherwise continues; `None()` after the loop. -/
def validateVariables : List EnvironmentVariable → Option String
  | [] => none
  | v :: rest =>
    match validateEnvironmentVariable v with
    | some e => some e
    | none => validateVariables rest

/-- `validateEnvironment` from the source. -/
def validateEnvironment (environment : Environment) : Option String :=
  validateVariables environment.vars

/-- The `Volume::Source::Type` union discriminator; `OTHER tag` stands for
any discriminator value outside the four named kinds (here the source does
have a `default:` label, so these are handled as an ordinary error). -/
inductive VolumeSourceType where
  | DOCKER_VOLUME
  | HOST_PATH
  | SANDBOX_PATH
  | SECRET
  | OTHER (tag : Nat)
  deriving DecidableEq

/-- Modelled from the spec: a volume source is a discriminator plus one
optional payload slot per known kind. The payload contents are opaque to
this layer (only presence is inspected), so they are modelled as `Unit`. -/
structure VolumeSource where
  type : VolumeSourceType
  docker_volume : Option Unit
  host_path : Option Unit
  sandbox_path : Option Unit
  secret : Option Unit
  deriving DecidableEq

/-- Modelled from the spec: a Volume has three optional top-level slots;
`host_path` is a path string, `image` is opaque to this layer. -/
structure Volume where
  host_path : Option String
  image : Option Unit
  source : Option VolumeSource
  deriving DecidableEq

/-- `validateVolume` from the source: counts the populated top-level slots,
requires exactly one, and for a populated `source` dispatches on its
discriminator, requiring the matching nested payload; the `default:` label
reports an unknown source type as an ordinary error. -/
def validateVolume (volume : Volume) : Option String :=
  let count :=
    (if volume.host_path.isSome then 1 else 0) +
    (if volume.image.isSome then 1 else 0) +
    (if volume.source.isSome then 1 else 0)
  if count ≠ 1 then
    some "Only one of them should be set: \x27host_path\x27, \x27image\x27 and \x27source\x27"
  else
    match volume.source with
    | some source =>
      match source.type with
      | VolumeSourceType.DOCKER_VOLUME =>
        if !source.docker_volume.isSome then
          some "\x27source.docker_volume\x27 is not set for DOCKER_VOLUME volume"
        else
          none
      | VolumeSourceType.HOST_PATH =>
        if !source.host_path.isSome then
          some "\x27source.host_path\x27 is not set for HOST_PATH volume"
        else
          none
      | VolumeSourceType.SANDBOX_PATH =>
        if !source.sandbox_path.isSome then
          some "\x27source.sandbox_path\x27 is not set for SANDBOX_PATH volume"
        else
          none
      | VolumeSourceType.SECRET =>
        if !source.secret.isSome then
          some "\x27source.secret\x27 is not set for SECRET volume"
        else
          none
      | VolumeSourceType.OTHER _ =>
        some "\x27source.type\x27 is unknown"
    | none => none

/-- Modelled from the spec: a ContainerSpecification is an ordered sequence
of volumes. -/
structure ContainerInfo where
  volumes : List Volume
  deriving DecidableEq

/-- The `foreach` loop of `validateContainerInfo`: the first volume error is
wrapped with the fixed prefix and returned. -/
def validateVolumes : List Volume → Option String
  | [] => none
  | v :: rest =>
    match validateVolume v with
    | some e => some ("Invalid volume: " ++ e)
    | none => validateVolumes rest

/-- `validateContainerInfo` from the source. -/
def validateContainerInfo (containerInfo : ContainerInfo) : Option String :=
  validateVolumes containerInfo.volumes

/-- Modelled from the spec: the resource list is opaque to this layer except
for scalar extraction; the external `Resources(resources).gpus()` extraction
yields the accelerator scalar, a fixed-precision scalar expressible at 3
decimal digits, which we represent exactly as integer milli-units
(`gpusMillis = none` when no gpus resource is present). -/
structure ResourceList where
  gpusMillis : Option Int
  deriving DecidableEq

/-- The `Resources(resources).gpus().getOrElse(0.0)` extraction, in
milli-units: absent extracts as 0. -/
def gpus (resources : ResourceList) : Int :=
  resources.gpusMillis.getD 0

/-- The exact fixed-point reading of the gpus check of the source
(`static_cast<long long>(gpus * 1000.0) % 1000 != 0`): zero truncated
remainder (`Int.tmod`) of the milli-unit count modulo 1000. This idealized
model coincides with the double computation of the source wherever that
computation rounds exactly — in particular on whole-valued quantities,
where the divide-by-1000, multiply-by-1000 and truncate chain incurs no
rounding, and on dyadic examples such as 2.5 — but not on every 3-decimal
value: `validateGpusDouble` below is the faithful binary64 model of the
same source line, and it accepts some fractional quantities (for example
1.001) that this exact model rejects. -/
def validateGpus (resources : ResourceList) : Option String :=
  if (gpus resources).tmod 1000 ≠ 0 then
    some "The \x27gpus\x27 resource must be an unsigned integer"
  else
    none

/-- Floor of base-2 logarithm on `Nat`, via an explicit fuel argument (the
fuel only bounds the recursion depth; `n` as fuel is always sufficient). -/
def log2Aux : Nat → Nat → Nat
  | 0, _ => 0
  | fuel + 1, n => if n < 2 then 0 else log2Aux fuel (n / 2) + 1

/-- Floor of base-2 logarithm: `log2N n = e` with `2 ^ e ≤ n < 2 ^ (e + 1)`
for `n > 0`, and `log2N 0 = 0`. -/
def log2N (n : Nat) : Nat := log2Aux n n

/-- Round the fraction `n / d` (with `d ≠ 0`) to the nearest integer,
ties to even — the IEEE 754 default rounding of a significand. -/
def rnInt (n d : Nat) : Nat :=
  let q := n / d
  let r := n % d
  if 2 * r < d then q
  else if d < 2 * r then q + 1
  else if q % 2 = 0 then q else q + 1

/-- Floor of the base-2 logarithm of the positive fraction `n / d`: the
unique `e` with `2 ^ e ≤ n / d < 2 ^ (e + 1)`. -/
def ilog2Frac (n d : Nat) : Int :=
  let c : Int := (log2N n : Int) - (log2N d : Int)
  if 0 ≤ c then (if d * 2 ^ c.toNat ≤ n then c else c - 1)
  else (if d ≤ n * 2 ^ (-c).toNat then c else c - 1)

/-- Round the nonnegative fraction `n / d` to the nearest IEEE 754 binary64
value (53-bit significand, round to nearest, ties to even), returned as a
pair `(m, k)` representing the dyadic value `m * 2 ^ k`. Overflow to
infinity and subnormals cannot arise for the magnitudes considered here and
are not modelled. -/
def roundDoublePos (n d : Nat) : Nat × Int :=
  if n = 0 then (0, 0)
  else
    let e := ilog2Frac n d
    if 52 ≤ e then (rnInt n (d * 2 ^ (e - 52).toNat), e - 52)
    else (rnInt (n * 2 ^ (52 - e).toNat) d, e - 52)

/-- Faithful binary64 model of the gpus check of the source,
`static_cast<long long>(gpus * 1000.0) % 1000 != 0`, on a double obtained
by the external extraction. The extraction yields the binary64 value
nearest the exact quantity `millis / 1000` (sign and a dyadic magnitude
`p1`); the multiplication by `1000.0` is one correctly rounded binary64
operation (`p2`); the cast truncates toward zero (`t`, reattaching the sign
as `tz`); the C++ `%` is the truncated remainder `Int.tmod`. -/
def validateGpusDouble (resources : ResourceList) : Option String :=
  let n : Int := gpus resources
  let p1 := roundDoublePos n.natAbs 1000
  let p2 :=
    if 0 ≤ p1.2 then roundDoublePos (p1.1 * 1000 * 2 ^ p1.2.toNat) 1
    else roundDoublePos (p1.1 * 1000) (2 ^ (-p1.2).toNat)
  let t : Nat := if 0 ≤ p2.2 then p2.1 * 2 ^ p2.2.toNat else p2.1 / 2 ^ (-p2.2).toNat
  let tz : Int := if n < 0 then -(t : Int) else (t : Int)
  if tz.tmod 1000 ≠ 0 then
    some "The \x27gpus\x27 resource must be an unsigned integer"
  else
    none

example : validateID ['a', 'b'] = none := by decide
example : validateID ['.'] = some "\x27.\x27 is disallowed" := by rfl
example : validateSecret ⟨SecretType.OTHER 3, none, none⟩ = none := by rfl
example : validateGpus ⟨some 2500⟩ =
    some "The \x27gpus\x27 resource must be an unsigned integer" := by rfl

/-- A character fails the `invalidCharacter` scan exactly when it is
non-control (code point at least 32 and not 127) and is neither path
separator. -/
theorem invalidCharacter_eq_false_iff (c : Char) :
    invalidCharacter c = false ↔
      32 ≤ c.toNat ∧ c.toNat ≠ 127 ∧ c ≠ '/' ∧ c ≠ '\\' := by
  unfold invalidCharacter iscntrl POSIX_PATH_SEPARATOR WINDOWS_PATH_SEPARATOR
  simp only [Bool.or_eq_false_iff, decide_eq_false_iff_not, beq_eq_false_iff_ne,
    Nat.not_lt, ne_eq]
  tauto

/-- Claim C5: an identifier validates successfully exactly when it is
nonempty, at most `NAME_MAX` characters long, not one of the reserved path
components `.` and `..`, and contains no control character and no path
separator; every string violating one of these rules fails. -/
theorem validateID_characterization (id : List Char) :
    validateID id = none ↔
      id ≠ [] ∧ id.length ≤ NAME_MAX ∧ id ≠ ['.'] ∧ id ≠ ['.', '.'] ∧
        ∀ c ∈ id, 32 ≤ c.toNat ∧ c.toNat ≠ 127 ∧ c ≠ '/' ∧ c ≠ '\\' := by
  unfold validateID
  split_ifs with h1 h2 h3 h4
  · simp only [List.isEmpty_iff] at h1
    simp [h1]
  · simp only [Nat.lt_iff_add_one_le] at h2
    simp only [reduceCtorEq, false_iff, not_and]
    intro _ hlen
    omega
  · rcases h3 with h3 | h3 <;> simp [h3]
  · simp only [List.any_eq_true] at h4
    rcases h4 with ⟨c, hc, hbad⟩
    simp only [reduceCtorEq, false_iff, not_and]
    intro _ _ _ _
    intro hall
    rcases (invalidCharacter_eq_false_iff c).mpr (hall c hc) with h
    rw [hbad] at h
    cases h
  · simp only [true_iff]
    push_neg at h3
    refine ⟨by simpa [List.isEmpty_iff] using h1, by omega, h3.1, h3.2, ?_⟩
    intro c hc
    have : invalidCharacter c = false := by
      by_contra hcon
      exact h4 (List.any_eq_true.mpr ⟨c, hc, by simpa using hcon⟩)
    exact (invalidCharacter_eq_false_iff c).mp this

/-- Witness for claim C5 at a concrete identifier. -/
theorem validateID_characterization_witness :
    validateID ['a', 'b'] = none :=
  (validateID_characterization ['a', 'b']).mpr (by decide)

/-- Claim C2: for a Secret with discriminator REFERENCE, validation succeeds
exactly when the reference payload is present and the value payload absent
(so it fails when the reference payload is missing, and fails when the value
payload is present even together with the reference payload); discriminator
VALUE is the mirror image; discriminator UNKNOWN always succeeds regardless
of which payloads are present. -/
theorem validateSecret_characterization (r : Option SecretReference)
    (v : Option SecretValue) :
    (validateSecret ⟨SecretType.REFERENCE, r, v⟩ = none ↔
      r.isSome = true ∧ v = none) ∧
    (validateSecret ⟨SecretType.VALUE, r, v⟩ = none ↔
      v.isSome = true ∧ r = none) ∧
    validateSecret ⟨SecretType.UNKNOWN, r, v⟩ = none := by
  refine ⟨?_, ?_, rfl⟩ <;> cases r <;> cases v <;> simp [validateSecret]

/-- Witness for claim C2 at a concrete secret. -/
theorem validateSecret_characterization_witness :
    validateSecret ⟨SecretType.REFERENCE, some ⟨"credential"⟩, none⟩ = none :=
  ((validateSecret_characterization (some ⟨"credential"⟩) none).1).mpr ⟨rfl, rfl⟩

/-- Claim C3: in an Environment, a variable with discriminator VALUE
validates successfully exactly when its literal value is present and its
secret absent; a variable with discriminator SECRET validates successfully
exactly when its secret is present, its literal value absent, the secret
passes `validateSecret`, and the secret value payload (empty when absent)
contains no null byte; a variable with discriminator UNKNOWN always
fails. -/
theorem validateEnvironment_variable_characterization (n : String)
    (val : Option String) (sec : Option Secret) :
    (validateEnvironment ⟨[⟨n, VariableType.VALUE, val, sec⟩]⟩ = none ↔
      val.isSome = true ∧ sec = none) ∧
    (validateEnvironment ⟨[⟨n, VariableType.SECRET, val, sec⟩]⟩ = none ↔
      ∃ s, sec = some s ∧ val = none ∧ validateSecret s = none ∧
        NUL ∉ (s.value.getD defaultSecretValue).data) ∧
    validateEnvironment ⟨[⟨n, VariableType.UNKNOWN, val, sec⟩]⟩ ≠ none := by
  refine ⟨?_, ?_, ?_⟩
  · cases val <;> cases sec <;>
      simp [validateEnvironment, validateVariables, validateEnvironmentVariable]
  · cases sec with
    | none =>
      cases val <;>
        simp [validateEnvironment, validateVariables, validateEnvironmentVariable]
    | some s =>
      cases val with
      | some lit =>
        simp [validateEnvironment, validateVariables, validateEnvironmentVariable]
      | none =>
        cases h : validateSecret s with
        | some e =>
          simp [validateEnvironment, validateVariables, validateEnvironmentVariable, h]
        | none =>
          by_cases hnul : NUL ∈ (s.value.getD defaultSecretValue).data
          · simp [validateEnvironment, validateVariables,
              validateEnvironmentVariable, h, hnul]
          · simp [validateEnvironment, validateVariables,
              validateEnvironmentVariable, h, hnul]
  · simp [validateEnvironment, validateVariables, validateEnvironmentVariable]

/-- Witness for claim C3 at a concrete environment variable. -/
theorem validateEnvironment_variable_characterization_witness :
    validateEnvironment ⟨[⟨"HOME", VariableType.VALUE, some "/home/user", none⟩]⟩ =
      none :=
  ((validateEnvironment_variable_characterization "HOME" (some "/home/user")
    none).1).mpr ⟨rfl, rfl⟩

/-- Claim C9: a SECRET-typed environment variable whose embedded secret is a
valid REFERENCE-type secret (reference payload present, value payload
absent) always validates successfully: the null-byte check reads only the
inline value payload, which is absent and defaults to the empty byte string;
no resolution of the referenced content happens. -/
theorem referenceSecretEnvironmentVariable_passes (n refname : String) :
    validateEnvironment ⟨[⟨n, VariableType.SECRET, none,
      some ⟨SecretType.REFERENCE, some ⟨refname⟩, none⟩⟩]⟩ = none := rfl

/-- Witness for claim C9 at concrete names. -/
theorem referenceSecretEnvironmentVariable_passes_witness :
    validateEnvironment ⟨[⟨"DB_PASSWORD", VariableType.SECRET, none,
      some ⟨SecretType.REFERENCE, some ⟨"/secrets/db"⟩, none⟩⟩]⟩ = none :=
  referenceSecretEnvironmentVariable_passes "DB_PASSWORD" "/secrets/db"

/-- Claim C1 evaluated at the failing inputs: a Secret whose discriminator
lies outside the closed set, and an Environment with a variable whose
discriminator lies outside the closed set, are both silently accepted. The
switches in the source have no `default:` label, so such discriminators fall
past every case and the `UNREACHABLE()` defensive assertions, which stand in
the switch bodies without a label after a `break` respectively a `return`,
are dead code and never trigger. -/
theorem outOfRangeDiscriminatorSilentlySucceeds :
    validateSecret ⟨SecretType.OTHER 3, none, none⟩ = none ∧
    validateEnvironment ⟨[⟨"PATH", VariableType.OTHER 3, none, none⟩]⟩ = none :=
  ⟨rfl, rfl⟩

/-- The loop of `validateEnvironment` returns the error of the first failing
variable: valid variables before it are skipped and variables after it are
never consulted. -/
theorem validateVariables_append_first_error (pre suf : List EnvironmentVariable)
    (v : EnvironmentVariable) (e : String)
    (hpre : ∀ w ∈ pre, validateEnvironmentVariable w = none)
    (hv : validateEnvironmentVariable v = some e) :
    validateVariables (pre ++ v :: suf) = some e := by
  revert hpre
  induction pre with
  | nil =>
    intro _
    simp [validateVariables, hv]
  | cons w rest ih =>
    intro hpre
    have hw : validateEnvironmentVariable w = none :=
      hpre w (List.mem_cons_self w rest)
    simp only [List.cons_append, validateVariables, hw]
    exact ih fun x hx => hpre x (List.mem_cons_of_mem _ hx)

/-- Claim C8: validators are fail-fast and non-accumulating. The environment
validator, run on any sequence whose prefix validates cleanly and whose next
variable fails with error `e`, reports exactly `e`, regardless of what
follows (so the first violated rule in sequence order decides the single
reported error). Likewise `validateID` reports the rule first violated in
its fixed order: any over-long nonempty identifier gets the length error,
whatever other rules it also violates. -/
theorem failFast_first_error (pre suf : List EnvironmentVariable)
    (v : EnvironmentVariable) (e : String)
    (hpre : ∀ w ∈ pre, validateEnvironmentVariable w = none)
    (hv : validateEnvironmentVariable v = some e) :
    validateEnvironment ⟨pre ++ v :: suf⟩ = some e ∧
    ∀ id : List Char, id ≠ [] → NAME_MAX < id.length →
      validateID id =
        some ("ID must not be greater than " ++ toString NAME_MAX ++ " characters") := by
  constructor
  · exact validateVariables_append_first_error pre suf v e hpre hv
  · intro id hne hlen
    simp [validateID, List.isEmpty_iff, hne, hlen]

/-- Witness for claim C8: a valid variable, then an UNKNOWN-typed variable,
then another invalid variable; the reported error is the UNKNOWN error of
the second variable. The identifier part is instantiated at a 300-character
identifier that also contains an invalid character. -/
theorem failFast_first_error_witness :
    validateEnvironment
      ⟨[⟨"A", VariableType.VALUE, some "1", none⟩,
        ⟨"B", VariableType.UNKNOWN, none, none⟩,
        ⟨"C", VariableType.VALUE, none, none⟩]⟩ =
      some "Environment variable of type \x27UNKNOWN\x27 is not allowed" ∧
    validateID (List.replicate 300 '/') =
      some ("ID must not be greater than " ++ toString NAME_MAX ++ " characters") := by
  constructor
  · exact (failFast_first_error
      [⟨"A", VariableType.VALUE, some "1", none⟩]
      [⟨"C", VariableType.VALUE, none, none⟩]
      ⟨"B", VariableType.UNKNOWN, none, none⟩
      "Environment variable of type \x27UNKNOWN\x27 is not allowed"
      (by intro w hw; rw [List.mem_singleton] at hw; subst hw; rfl) rfl).1
  · exact (failFast_first_error
      [⟨"A", VariableType.VALUE, some "1", none⟩]
      [⟨"C", VariableType.VALUE, none, none⟩]
      ⟨"B", VariableType.UNKNOWN, none, none⟩
      "Environment variable of type \x27UNKNOWN\x27 is not allowed"
      (by intro w hw; rw [List.mem_singleton] at hw; subst hw; rfl) rfl).2
      (List.replicate 300 '/') (by simp [List.replicate_eq_nil_iff])
      (by rw [List.length_replicate]; norm_num [NAME_MAX])

/-- A valid host-path volume: only the `host_path` top-level slot is set. -/
def hostPathVolume : Volume := ⟨some "/tmp", none, none⟩

/-- An invalid empty volume: none of the three top-level slots is set. -/
def emptyVolume : Volume := ⟨none, none, none⟩

/-- Another invalid volume, with two top-level slots set. -/
def doubledVolume : Volume := ⟨some "/tmp", some (), none⟩

/-- Claim C4 counterexample: for the volume sequence
[valid-host-path-volume, invalid-empty-volume] the container validator does
fail, but the failure it returns is the fixed string
`Invalid volume: Only one of them should be set: ...`; the identical error
is returned when the invalid volume sits at the first position instead of
the second, and when the failing volume has different content (two slots
populated instead of zero). The wrapped error therefore names neither the
position nor the content of the failing volume, refuting the part of the
claim that says it does. -/
theorem validateContainerInfo_positionless_error :
    validateContainerInfo ⟨[hostPathVolume, emptyVolume]⟩ =
      some "Invalid volume: Only one of them should be set: \x27host_path\x27, \x27image\x27 and \x27source\x27" ∧
    validateContainerInfo ⟨[emptyVolume, hostPathVolume]⟩ =
      validateContainerInfo ⟨[hostPathVolume, emptyVolume]⟩ ∧
    validateContainerInfo ⟨[hostPathVolume, doubledVolume]⟩ =
      validateContainerInfo ⟨[hostPathVolume, emptyVolume]⟩ :=
  ⟨rfl, rfl, rfl⟩

/-- Claim C4 (amended): the container validator checks volumes in sequence
and on the first invalid volume returns its failure wrapped with the fixed
context prefix `Invalid volume: ` (which does not name the failing volume
position or content); in particular for [valid-host-path-volume,
invalid-empty-volume] the result is the second volume failure so wrapped,
and earlier valid volumes do not affect the outcome (nor are later volumes
consulted). -/
theorem validateContainerInfo_first_failure_wrapped (pre suf : List Volume)
    (v : Volume) (e : String)
    (hpre : ∀ w ∈ pre, validateVolume w = none)
    (hv : validateVolume v = some e) :
    validateContainerInfo ⟨pre ++ v :: suf⟩ = some ("Invalid volume: " ++ e) := by
  show validateVolumes (pre ++ v :: suf) = _
  revert hpre
  induction pre with
  | nil =>
    intro _
    simp [validateVolumes, hv]
  | cons w rest ih =>
    intro hpre
    have hw : validateVolume w = none := hpre w (List.mem_cons_self w rest)
    simp only [List.cons_append, validateVolumes, hw]
    exact ih fun x hx => hpre x (List.mem_cons_of_mem _ hx)

/-- Witness for claim C4 (amended) at the volume sequence from the claim. -/
theorem validateContainerInfo_first_failure_wrapped_witness :
    validateContainerInfo ⟨[hostPathVolume, emptyVolume]⟩ =
      some ("Invalid volume: " ++
        "Only one of them should be set: \x27host_path\x27, \x27image\x27 and \x27source\x27") :=
  validateContainerInfo_first_failure_wrapped [hostPathVolume] [] emptyVolume
    "Only one of them should be set: \x27host_path\x27, \x27image\x27 and \x27source\x27"
    (by intro w hw; rw [List.mem_singleton] at hw; subst hw; rfl) rfl

/-- The nested payload requirement of the Volume Validator, stated after the
words of the spec: the payload slot matching the source discriminator must
be present, and a discriminator outside the four known kinds never
matches. -/
def sourcePayloadMatches (s : VolumeSource) : Prop :=
  match s.type with
  | VolumeSourceType.DOCKER_VOLUME => s.docker_volume.isSome = true
  | VolumeSourceType.HOST_PATH => s.host_path.isSome = true
  | VolumeSourceType.SANDBOX_PATH => s.sandbox_path.isSome = true
  | VolumeSourceType.SECRET => s.secret.isSome = true
  | VolumeSourceType.OTHER _ => False

/-- Claim C6: a Volume validates successfully exactly when exactly one of
the three top-level slots is populated and, when that slot is the source,
the nested payload matching the source discriminator is present (which a
discriminator outside the four known kinds never is); moreover a source
discriminator outside the known kinds yields the ordinary reportable
`source.type is unknown` error, not a defensive panic. -/
theorem validateVolume_characterization (volume : Volume) :
    (validateVolume volume = none ↔
      ((volume.host_path.isSome = true ∧ volume.image = none ∧ volume.source = none) ∨
       (volume.host_path = none ∧ volume.image.isSome = true ∧ volume.source = none) ∨
       (volume.host_path = none ∧ volume.image = none ∧ volume.source.isSome = true)) ∧
      ∀ s, volume.source = some s → sourcePayloadMatches s) ∧
    ∀ tag dv hp sp sc,
      validateVolume ⟨none, none, some ⟨VolumeSourceType.OTHER tag, dv, hp, sp, sc⟩⟩ =
        some "\x27source.type\x27 is unknown" := by
  constructor
  · rcases volume with ⟨hp, im, src⟩
    cases hp with
    | some p =>
      cases im <;> cases src <;>
        simp [validateVolume, sourcePayloadMatches]
    | none =>
      cases im with
      | some u =>
        cases src <;>
          simp [validateVolume, sourcePayloadMatches]
      | none =>
        cases src with
        | none => simp [validateVolume]
        | some s =>
          rcases s with ⟨st, dv, shp, ssp, ssc⟩
          cases st with
          | DOCKER_VOLUME =>
            cases dv <;> simp [validateVolume, sourcePayloadMatches]
          | HOST_PATH =>
            cases shp <;> simp [validateVolume, sourcePayloadMatches]
          | SANDBOX_PATH =>
            cases ssp <;> simp [validateVolume, sourcePayloadMatches]
          | SECRET =>
            cases ssc <;> simp [validateVolume, sourcePayloadMatches]
          | OTHER tag =>
            simp [validateVolume, sourcePayloadMatches]
  · intro tag dv hp sp sc
    rfl

/-- Witness for claim C6 at a concrete docker-volume-sourced volume. -/
theorem validateVolume_characterization_witness :
    validateVolume ⟨none, none,
      some ⟨VolumeSourceType.DOCKER_VOLUME, some (), none, none, none⟩⟩ = none :=
  ((validateVolume_characterization ⟨none, none,
    some ⟨VolumeSourceType.DOCKER_VOLUME, some (), none, none, none⟩⟩).1).mpr
    (by constructor
        · exact Or.inr (Or.inr ⟨rfl, rfl, rfl⟩)
        · intro s hs
          cases hs
          exact rfl)

/-- Claim C7, settled at a failing input of the code: under the faithful
binary64 model of the source computation, the fractional quantity 1.001
gpus (milli-units 1001) is accepted — the binary64 value nearest 1.001,
multiplied by 1000.0, rounds to 1001 minus 2 to the minus 43, the cast
truncates that to 1000, and 1000 mod 1000 is 0 — although the fractional
remainder of 1.001 at 3-decimal fixed precision is 1, not 0. The claimed
characterization (and the source comment that the gpus resource must not be
fractional) is therefore violated; the exact fixed-point reading of the
same check rejects 1001 milli-units. At the claim's named examples (2.000,
2.5, 1.999 and absent) the code behaves as the claim states. -/
theorem validateGpusDouble_accepts_fractional :
    validateGpusDouble ⟨some 1001⟩ = none ∧
    Int.tmod (gpus ⟨some 1001⟩) 1000 = 1 ∧
    validateGpus ⟨some 1001⟩ =
      some "The \x27gpus\x27 resource must be an unsigned integer" ∧
    validateGpusDouble ⟨some 2000⟩ = none ∧
    validateGpusDouble ⟨some 2500⟩ =
      some "The \x27gpus\x27 resource must be an unsigned integer" ∧
    validateGpusDouble ⟨some 1999⟩ =
      some "The \x27gpus\x27 resource must be an unsigned integer" ∧
    validateGpusDouble ⟨none⟩ = none := by
  refine ⟨by decide, by decide, by decide, by decide, by decide, by decide, by decide⟩

